import Mathlib

/-!
Shallow embedding of the NETIZEN dashboard aggregation layer
(src/controllers/dashboardController.js, src/models/dashboardModel.js).

Modelling conventions:
* Mongo documents are Lean structures; object ids are natural numbers,
  timestamps are integers (milliseconds); optional schema fields are
  Option values.
* A store (collection) is a Lean list in insertion (natural) order.  A
  query without an explicit sort reads the list in that order; a query
  with a sort is modelled by a stable insertion sort on the sort key.
* Case-insensitive regex matching of a query string against a text field
  is modelled as case-insensitive substring containment (regex
  metacharacters are not modelled).
* Fallible store accesses are modelled with Except String.  Each route
  handler has an "H" form that takes the outcome of every store access
  as an Except argument, mirroring the await/try/catch structure of the
  handler, and a "Run" form instantiating every access with its
  successful result computed from the store lists.
* Random placeholder fields (participant counts, mutual-connection
  counts) and the calendar-date formatting of recording dates are not
  modelled; no claim refers to them.  A recording's recordedDate keeps
  the raw start timestamp.
-/

/-- Character lists: needle is a leading segment of the haystack. -/
def leadEq : List Char → List Char → Bool
  | [], _ => true
  | _ :: _, [] => false
  | a :: as, b :: bs => a == b && leadEq as bs

/-- Character lists: needle occurs contiguously somewhere in the haystack. -/
def occursIn (needle : List Char) : List Char → Bool
  | [] => leadEq needle []
  | c :: rest => leadEq needle (c :: rest) || occursIn needle rest

/-- Lower-case a character list. -/
def lowerList (l : List Char) : List Char :=
  l.map Char.toLower

/-- Case-insensitive substring containment: models matching the
JavaScript regex new RegExp(needle, 'i') against hay (metacharacters
not modelled). -/
def ciContains (hay needle : String) : Bool :=
  occursIn (lowerList needle.data) (lowerList hay.data)

/-- JavaScript s.substring(0, n). -/
def jsSubstring (s : String) (n : Nat) : String :=
  ⟨s.data.take n⟩

/-- Stable insert for a descending sort on an integer key. -/
def insertDescBy {α : Type} (key : α → Int) (a : α) : List α → List α
  | [] => [a]
  | b :: bs => if key b ≤ key a then a :: b :: bs else b :: insertDescBy key a bs

/-- Stable descending sort on an integer key (models a Mongo sort with -1). -/
def sortDescBy {α : Type} (key : α → Int) : List α → List α
  | [] => []
  | a :: as => insertDescBy key a (sortDescBy key as)

/-- Stable insert for an ascending sort on an integer key. -/
def insertAscBy {α : Type} (key : α → Int) (a : α) : List α → List α
  | [] => [a]
  | b :: bs => if key a ≤ key b then a :: b :: bs else b :: insertAscBy key a bs

/-- Stable ascending sort on an integer key (models a Mongo sort with 1). -/
def sortAscBy {α : Type} (key : α → Int) : List α → List α
  | [] => []
  | a :: as => insertAscBy key a (sortAscBy key as)

/-- Distinct strings of a list, keeping first occurrences in order. -/
def dedupFirst : List String → List String
  | [] => []
  | q :: rest => q :: (dedupFirst rest).filter (fun x => x ≠ q)

/-- Mongo comparison field ≤ bound ($lte); a missing field never matches. -/
def mongoLe : Option Int → Int → Bool
  | some t, n => decide (t ≤ n)
  | none, _ => false

/-- Mongo comparison field > bound ($gt); a missing field never matches. -/
def mongoGt : Option Int → Int → Bool
  | some t, n => decide (n < t)
  | none, _ => false

/-- Mongo comparison field < bound ($lt); a missing field never matches. -/
def mongoLt : Option Int → Int → Bool
  | some t, n => decide (t < n)
  | none, _ => false

/-- JSON response envelope produced by res.status(...).json(...). -/
structure HttpResponse (α : Type) where
  status : Nat
  success : Bool
  data : Option α
  message : Option String
deriving DecidableEq

/-- res.status(200).json({success: true, data}). -/
def okResp {α : Type} (a : α) : HttpResponse α :=
  ⟨200, true, some a, none⟩

/-- res.status(500).json({success: false, message}). -/
def serverError {α : Type} (e : String) : HttpResponse α :=
  ⟨500, false, none, some e⟩

/-- logActivity: the Activity.create outcome is caught inside the
helper's own try/catch, so success and failure are indistinguishable to
the caller (dashboardController.js lines 5-15). -/
def logActivity (createResult : Except String Unit) : Unit :=
  match createResult with
  | .ok _ => ()
  | .error _ => ()

/-- Modelled from the spec: the User schema lives in the absent
src/models/userModel.js; §3 gives its shape {id, name, email,
credential-hash}; the credential hash is never read by the dashboard
code and is omitted. -/
structure User where
  id : Nat
  name : String
  email : String
deriving DecidableEq

/-- ActivitySchema (dashboardModel.js lines 4-22). -/
structure ActivityRecord where
  user : Nat
  type : String
  details : String
  timestamp : Int
deriving DecidableEq

/-- MessageSchema (dashboardModel.js lines 25-52). -/
structure Message where
  id : Nat
  sender : Nat
  recipient : Nat
  subject : String
  content : String
  isRead : Bool
  createdAt : Int
deriving DecidableEq

/-- ContentSchema (dashboardModel.js lines 55-96). -/
structure ContentItem where
  id : Nat
  title : String
  type : String
  description : Option String
  content : Option String
  author : Option Nat
  tags : List String
  isLive : Bool
  startTime : Option Int
  endTime : Option Int
  createdAt : Int
  updatedAt : Int
deriving DecidableEq

/-- SearchSchema (dashboardModel.js lines 99-117). -/
structure SearchRecord where
  user : Nat
  query : String
  timestamp : Int
  results : Nat
deriving DecidableEq

/-- JavaScript truthiness of the optional description field: undefined
and the empty string are falsy. -/
def descTruthy : Option String → Bool
  | some d => d != ""
  | none => false

/-- content.content.substring(0, 100): throws a TypeError when the body
is undefined (the thrown message is representative). -/
def bodyExcerpt : Option String → Except String String
  | some b => .ok (jsSubstring b 100)
  | none => .error "Cannot read properties of undefined (reading 'substring')"

/-- content.description || content.content.substring(0, 100)
(dashboardController.js line 54). -/
def excerptOf (c : ContentItem) : Except String String :=
  match c.description with
  | some d => if d ≠ "" then .ok d else bodyExcerpt c.content
  | none => bodyExcerpt c.content

/-- Announcement entry of the home payload. -/
structure Announcement where
  id : Nat
  title : String
  content : String
deriving DecidableEq

/-- recentContent.map over announcements; the first throwing excerpt
aborts the whole map, like the JavaScript Array.map. -/
def announcementsOf : List ContentItem → Except String (List Announcement)
  | [] => .ok []
  | c :: cs =>
    match excerptOf c with
    | .error e => .error e
    | .ok ex =>
      match announcementsOf cs with
      | .error e => .error e
      | .ok rest => .ok (⟨c.id, c.title, ex⟩ :: rest)

/-- quickStats of the home payload; notifications and tasks are literal
placeholders in the source. -/
structure QuickStats where
  notifications : Nat
  messages : Nat
  tasks : Nat
deriving DecidableEq

/-- Home payload. -/
structure HomeData where
  recentActivity : List ActivityRecord
  quickStats : QuickStats
  announcements : List Announcement
deriving DecidableEq

/-- getHomePage with every store access given as an Except outcome, in
source order: activity logging, recent activities, unread count, recent
content (dashboardController.js lines 20-68). -/
def getHomePageH (logRes : Except String Unit)
    (activitiesRes : Except String (List ActivityRecord))
    (unreadRes : Except String Nat)
    (contentRes : Except String (List ContentItem)) : HttpResponse HomeData :=
  let _ := logActivity logRes
  match activitiesRes with
  | .error e => serverError e
  | .ok recentActivities =>
    match unreadRes with
    | .error e => serverError e
    | .ok unreadMessages =>
      match contentRes with
      | .error e => serverError e
      | .ok recentContent =>
        match announcementsOf recentContent with
        | .error e => serverError e
        | .ok anns =>
          okResp ⟨recentActivities, ⟨5, unreadMessages, 8⟩, anns⟩

/-- The three most recent content items (sort createdAt -1, limit 3). -/
def homeRecentContent (contentStore : List ContentItem) : List ContentItem :=
  (sortDescBy (fun c => c.createdAt) contentStore).take 3

/-- getHomePage over concrete stores with every access succeeding. -/
def getHomePageRun (uid : Nat) (activityStore : List ActivityRecord)
    (msgStore : List Message) (contentStore : List ContentItem) :
    HttpResponse HomeData :=
  getHomePageH (.ok ())
    (.ok ((sortDescBy (fun a => a.timestamp)
      (activityStore.filter (fun a => a.user == uid))).take 5))
    (.ok ((msgStore.filter (fun m => m.recipient == uid && !m.isRead)).length))
    (.ok (homeRecentContent contentStore))

/-- A search result entry: a content hit carries {id, type:'content',
title, description, matchReason}, a user hit {id, type:'user', name,
email, matchReason}. -/
inductive SearchResult where
  | contentHit (id : Nat) (title : String) (description : Option String)
      (reason : String)
  | userHit (id : Nat) (name : String) (email : String) (reason : String)
deriving DecidableEq

/-- The matchReason field of either kind of search result. -/
def SearchResult.matchReason : SearchResult → String
  | .contentHit _ _ _ r => r
  | .userHit _ _ _ r => r

/-- Formatted content search result (dashboardController.js lines 123-129). -/
def formatContentResult (q : String) (item : ContentItem) : SearchResult :=
  .contentHit item.id item.title item.description
    ("Content matches \"" ++ q ++ "\"")

/-- Formatted user search result (dashboardController.js lines 132-138). -/
def formatUserResult (q : String) (u : User) : SearchResult :=
  .userHit u.id u.name u.email ("User matches \"" ++ q ++ "\"")

/-- Content query predicate: title, description or any tag matches the
query case-insensitively ($or of two $regex clauses and a $in of one
regex). -/
def contentMatches (q : String) (c : ContentItem) : Bool :=
  ciContains c.title q
    || (match c.description with
        | some d => ciContains d q
        | none => false)
    || c.tags.any (fun t => ciContains t q)

/-- Content.find($or ...).limit(10): first ten matches in store order. -/
def contentSearch (contentStore : List ContentItem) (q : String) :
    List ContentItem :=
  (contentStore.filter (fun c => contentMatches q c)).take 10

/-- User.find($or name/email regex).limit(5): first five matches. -/
def userSearch (userStore : List User) (q : String) : List User :=
  (userStore.filter (fun u => ciContains u.name q || ciContains u.email q)).take 5

/-- Combined results list: content results then user results. -/
def searchResultsOf (q : String) (contentStore : List ContentItem)
    (userStore : List User) : List SearchResult :=
  (contentSearch contentStore q).map (formatContentResult q)
    ++ (userSearch userStore q).map (formatUserResult q)

/-- Search.find({user}).sort(timestamp -1).limit(5). -/
def recentSearchesOf (store : List SearchRecord) (uid : Nat) :
    List SearchRecord :=
  (sortDescBy (fun r => r.timestamp) (store.filter (fun r => r.user == uid))).take 5

/-- The $group stage of the popular-searches aggregation: distinct query
strings with their occurrence counts. -/
def queryCounts (store : List SearchRecord) : List (String × Nat) :=
  (dedupFirst (store.map (fun r => r.query))).map
    (fun q => (q, (store.filter (fun r => r.query == q)).length))

/-- Search.aggregate group-by-query, sort count -1, limit 5. -/
def popularSearchesOf (store : List SearchRecord) : List (String × Nat) :=
  (sortDescBy (fun p => (p.2 : Int)) (queryCounts store)).take 5

/-- Search payload. -/
structure SearchPayload where
  recentSearches : List String
  popularSearches : List String
  results : List SearchResult
deriving DecidableEq

/-- getSearchPage with every store access given as an Except outcome, in
source order: (if query) activity logging and Search.create, recent
searches, popular searches, (if query) content search, user search and
the result-count update (dashboardController.js lines 73-164). -/
def getSearchPageH (q : String) (logRes : Except String Unit)
    (createRes : Except String Unit)
    (recentRes : Except String (List SearchRecord))
    (popularRes : Except String (List (String × Nat)))
    (contentRes : Except String (List ContentItem))
    (userRes : Except String (List User))
    (updateRes : Except String Unit) : HttpResponse SearchPayload :=
  match (if q ≠ "" then (let _ := logActivity logRes; createRes) else .ok ()) with
  | .error e => serverError e
  | .ok _ =>
    match recentRes with
    | .error e => serverError e
    | .ok recent =>
      match popularRes with
      | .error e => serverError e
      | .ok popular =>
        if q ≠ "" then
          match contentRes with
          | .error e => serverError e
          | .ok cs =>
            match userRes with
            | .error e => serverError e
            | .ok us =>
              match updateRes with
              | .error e => serverError e
              | .ok _ =>
                okResp ⟨(recent.map (fun r => r.query)),
                  (popular.map (fun p => p.1)),
                  cs.map (formatContentResult q) ++ us.map (formatUserResult q)⟩
        else
          okResp ⟨(recent.map (fun r => r.query)),
            (popular.map (fun p => p.1)), []⟩

/-- Search.findOneAndUpdate({user, query}, {results: n}): with no sort
option the first matching document in natural (insertion) order is
updated. -/
def searchFindOneAndUpdate : List SearchRecord → Nat → String → Nat →
    List SearchRecord
  | [], _, _, _ => []
  | r :: rs, uid, q, n =>
    if r.user = uid ∧ r.query = q then { r with results := n } :: rs
    else r :: searchFindOneAndUpdate rs uid q n

/-- getSearchPage over concrete stores with every access succeeding;
returns the response and the search store after the operation.  The
Search.create (timestamp defaulted to now, results defaulted to 0)
happens before the recent/popular reads; the result-count update happens
after the result lists are computed. -/
def getSearchPageRun (uid : Nat) (q : String) (now : Int)
    (searchStore : List SearchRecord) (contentStore : List ContentItem)
    (userStore : List User) : HttpResponse SearchPayload × List SearchRecord :=
  let store1 := if q ≠ "" then searchStore ++ [⟨uid, q, now, 0⟩] else searchStore
  let resp := getSearchPageH q (.ok ()) (.ok ())
    (.ok (recentSearchesOf store1 uid)) (.ok (popularSearchesOf store1))
    (.ok (contentSearch contentStore q)) (.ok (userSearch userStore q)) (.ok ())
  let store2 :=
    if q ≠ "" then
      searchFindOneAndUpdate store1 uid q (searchResultsOf q contentStore userStore).length
    else store1
  (resp, store2)

/-- Sender reference joined by populate('sender', 'name email'). -/
structure SenderRef where
  id : Nat
  name : String
deriving DecidableEq

/-- Formatted inbox message (dashboardController.js lines 186-196).  A
dangling sender reference makes the source throw inside the map (caught
as a store failure); it is modelled as a none sender. -/
structure FormattedMessage where
  id : Nat
  sender : Option SenderRef
  subject : String
  preview : String
  isRead : Bool
  timestamp : Int
deriving DecidableEq

/-- msg.content.substring(0, 100) + (msg.content.length > 100 ? '...' : ''). -/
def previewOf (body : String) : String :=
  jsSubstring body 100 ++ (if 100 < body.length then "..." else "")

/-- Format one fetched message, joining the populated sender. -/
def formatMessage (users : List User) (m : Message) : FormattedMessage :=
  ⟨m.id, (users.find? (fun u => u.id == m.sender)).map (fun u => ⟨u.id, u.name⟩),
    m.subject, previewOf m.content, m.isRead, m.createdAt⟩

/-- Message.find({recipient}).sort(createdAt -1).limit(20). -/
def inboxPage (uid : Nat) (msgStore : List Message) : List Message :=
  (sortDescBy (fun m => m.createdAt) (msgStore.filter (fun m => m.recipient == uid))).take 20

/-- Inbox payload. -/
structure InboxPayload where
  unreadCount : Nat
  messages : List FormattedMessage
deriving DecidableEq

/-- Inbox payload over concrete stores: unreadCount counts the fetched
page, not the whole store. -/
def inboxPayloadOf (uid : Nat) (users : List User) (msgStore : List Message) :
    InboxPayload :=
  ⟨((inboxPage uid msgStore).filter (fun m => !m.isRead)).length,
    (inboxPage uid msgStore).map (formatMessage users)⟩

/-- getInbox with every store access given as an Except outcome
(dashboardController.js lines 169-211). -/
def getInboxH (users : List User) (logRes : Except String Unit)
    (msgsRes : Except String (List Message)) : HttpResponse InboxPayload :=
  let _ := logActivity logRes
  match msgsRes with
  | .error e => serverError e
  | .ok messages =>
    okResp ⟨(messages.filter (fun m => !m.isRead)).length,
      messages.map (formatMessage users)⟩

/-- getInbox over concrete stores with every access succeeding. -/
def getInboxRun (uid : Nat) (users : List User) (msgStore : List Message) :
    HttpResponse InboxPayload :=
  getInboxH users (.ok ()) (.ok (inboxPage uid msgStore))

/-- Recommended content entry (dashboardController.js lines 247-253).
readTime is ceil(body length / 1000) minutes; a missing body yields NaN
in the source, modelled as none. -/
structure Recommendation where
  id : Nat
  type : String
  title : String
  description : Option String
  readTime : Option Nat
deriving DecidableEq

/-- Suggested connection entry; the random mutualConnections placeholder
is not modelled. -/
structure Connection where
  id : Nat
  name : String
  email : String
deriving DecidableEq

/-- For-you payload. -/
structure ForYouData where
  recommendedContent : List Recommendation
  suggestedConnections : List Connection
  trendingTopics : List String
deriving DecidableEq

/-- Format one recommended content item. -/
def formatRecommendation (c : ContentItem) : Recommendation :=
  ⟨c.id, c.type, c.title, c.description,
    c.content.map (fun b => (b.length + 999) / 1000)⟩

/-- Search.find({user}).select('query').limit(10): the query has no
sort, so it returns the first ten of the user's records in store order. -/
def forYouSearchTerms (uid : Nat) (searchStore : List SearchRecord) :
    List SearchRecord :=
  (searchStore.filter (fun r => r.user == uid)).take 10

/-- Recommendation query predicate: any tag, or the title, matches any
of the query strings case-insensitively ($or of a tags $in and a title
$in over the regex list). -/
def matchesAnyQuery (qs : List String) (c : ContentItem) : Bool :=
  c.tags.any (fun t => qs.any (fun q => ciContains t q))
    || qs.any (fun q => ciContains c.title q)

/-- Content.find($or ...).limit(5).sort(createdAt -1): Mongo applies the
sort before the limit, so this is the five newest matches. -/
def forYouRecommended (uid : Nat) (searchStore : List SearchRecord)
    (contentStore : List ContentItem) : List ContentItem :=
  (sortDescBy (fun c => c.createdAt)
    (contentStore.filter (fun c =>
      matchesAnyQuery ((forYouSearchTerms uid searchStore).map (fun r => r.query)) c))).take 5

/-- User.find({_id ≠ uid}).limit(3).select('name email'). -/
def suggestedOf (uid : Nat) (userStore : List User) : List User :=
  (userStore.filter (fun u => u.id != uid)).take 3

/-- The $unwind/$group stages of the trending-tags aggregation: every
tag occurrence exploded, grouped with counts. -/
def tagCounts (contentStore : List ContentItem) : List (String × Nat) :=
  (dedupFirst (contentStore.map (fun c => c.tags)).flatten).map
    (fun t => (t, ((contentStore.map (fun c => c.tags)).flatten.filter (fun x => x == t)).length))

/-- Content.aggregate unwind tags, group, sort count -1, limit 5. -/
def trendingTagsOf (contentStore : List ContentItem) : List (String × Nat) :=
  (sortDescBy (fun p => (p.2 : Int)) (tagCounts contentStore)).take 5

/-- Activity.find({user}).sort(timestamp -1).limit(50): fetched by
getForYouContent but otherwise unused. -/
def forYouActivities (uid : Nat) (activityStore : List ActivityRecord) :
    List ActivityRecord :=
  (sortDescBy (fun a => a.timestamp) (activityStore.filter (fun a => a.user == uid))).take 50

/-- For-you payload over concrete stores. -/
def forYouPayloadOf (uid : Nat) (searchStore : List SearchRecord)
    (contentStore : List ContentItem) (userStore : List User) : ForYouData :=
  ⟨(forYouRecommended uid searchStore contentStore).map formatRecommendation,
    (suggestedOf uid userStore).map (fun u => ⟨u.id, u.name, u.email⟩),
    (trendingTagsOf contentStore).map (fun p => p.1)⟩

/-- getForYouContent with every store access given as an Except outcome,
in source order: activity logging, user activities, search terms,
recommended content, suggested users, trending tags
(dashboardController.js lines 216-293). -/
def getForYouH (logRes : Except String Unit)
    (activitiesRes : Except String (List ActivityRecord))
    (searchRes : Except String (List SearchRecord))
    (contentRes : Except String (List ContentItem))
    (usersRes : Except String (List User))
    (trendingRes : Except String (List (String × Nat))) : HttpResponse ForYouData :=
  let _ := logActivity logRes
  match activitiesRes with
  | .error e => serverError e
  | .ok _userActivities =>
    match searchRes with
    | .error e => serverError e
    | .ok _searchTerms =>
      match contentRes with
      | .error e => serverError e
      | .ok recommended =>
        match usersRes with
        | .error e => serverError e
        | .ok sUsers =>
          match trendingRes with
          | .error e => serverError e
          | .ok trending =>
            okResp ⟨recommended.map formatRecommendation,
              sUsers.map (fun u => ⟨u.id, u.name, u.email⟩),
              trending.map (fun p => p.1)⟩

/-- getForYouContent over concrete stores with every access succeeding. -/
def getForYouRun (uid : Nat) (activityStore : List ActivityRecord)
    (searchStore : List SearchRecord) (contentStore : List ContentItem)
    (userStore : List User) : HttpResponse ForYouData :=
  getForYouH (.ok ()) (.ok (forYouActivities uid activityStore))
    (.ok (forYouSearchTerms uid searchStore))
    (.ok (forYouRecommended uid searchStore contentStore))
    (.ok (suggestedOf uid userStore))
    (.ok (trendingTagsOf contentStore))

/-- Current-live query filter: isLive, startTime $lte now, endTime $gt
now (dashboardController.js lines 308-312). -/
def matchesCurrentLive (now : Int) (c : ContentItem) : Bool :=
  c.isLive && mongoLe c.startTime now && mongoGt c.endTime now

/-- Upcoming query filter: isLive, startTime $gt now (lines 315-318). -/
def matchesUpcoming (now : Int) (c : ContentItem) : Bool :=
  c.isLive && mongoGt c.startTime now

/-- Recordings query filter: isLive, endTime $lt now (lines 324-327). -/
def matchesRecording (now : Int) (c : ContentItem) : Bool :=
  c.isLive && mongoLt c.endTime now

/-- Sort key for startTime; every item sorted with it in the live
handler has a defined startTime, so the default is immaterial. -/
def startKey (c : ContentItem) : Int :=
  c.startTime.getD 0

/-- Sort key for endTime; every item sorted with it in the live handler
has a defined endTime, so the default is immaterial. -/
def endKey (c : ContentItem) : Int :=
  c.endTime.getD 0

/-- Math.round((endTime - startTime) / (1000 * 60)) minutes; NaN (a
missing bound) is modelled as none.  Math.round(x) = floor(x + 1/2). -/
def durMinutes : Option Int → Option Int → Option Int
  | some s, some e => some (Int.fdiv (2 * (e - s) + 60000) 120000)
  | _, _ => none

/-- populate('author', 'name') resolved against the user store. -/
def findUserById (users : List User) (oid : Option Nat) : Option User :=
  match oid with
  | some i => users.find? (fun u => u.id == i)
  | none => none

/-- event.author?.name || 'System': an absent author, a dangling author
reference, or an empty author name all fall back to 'System'. -/
def hostOf (users : List User) (c : ContentItem) : String :=
  match findUserById users c.author with
  | some u => if u.name = "" then "System" else u.name
  | none => "System"

/-- Formatted current live event (lines 333-341); the random
participants placeholder is not modelled. -/
structure FormattedLiveEvent where
  id : Nat
  title : String
  host : String
  startTime : Option Int
  estimatedDuration : Option Int
  joinUrl : String
deriving DecidableEq

/-- Formatted upcoming event (lines 344-351). -/
structure FormattedUpcomingEvent where
  id : Nat
  title : String
  host : String
  scheduledTime : Option Int
  duration : Option Int
  registerUrl : String
deriving DecidableEq

/-- Formatted recording (lines 354-360): no author-derived field at all;
recordedDate keeps the raw start timestamp (the source formats its
calendar-date portion). -/
structure FormattedRecording where
  id : Nat
  title : String
  recordedDate : Option Int
  duration : Option Int
  viewUrl : String
deriving DecidableEq

/-- Format one current live event. -/
def formatLiveEvent (users : List User) (e : ContentItem) : FormattedLiveEvent :=
  ⟨e.id, e.title, hostOf users e, e.startTime, durMinutes e.startTime e.endTime,
    "/join-event/" ++ toString e.id⟩

/-- Format one upcoming event. -/
def formatUpcomingEvent (users : List User) (e : ContentItem) :
    FormattedUpcomingEvent :=
  ⟨e.id, e.title, hostOf users e, e.startTime, durMinutes e.startTime e.endTime,
    "/register/" ++ toString e.id⟩

/-- Format one recording. -/
def formatRecording (r : ContentItem) : FormattedRecording :=
  ⟨r.id, r.title, r.startTime, durMinutes r.startTime r.endTime,
    "/recordings/" ++ toString r.id⟩

/-- Current live events query: no sort, no limit. -/
def liveCurrent (contentStore : List ContentItem) (now : Int) : List ContentItem :=
  contentStore.filter (fun c => matchesCurrentLive now c)

/-- Upcoming events query: sort startTime 1, limit 5. -/
def liveUpcoming (contentStore : List ContentItem) (now : Int) : List ContentItem :=
  (sortAscBy startKey (contentStore.filter (fun c => matchesUpcoming now c))).take 5

/-- Recordings query: sort endTime -1, limit 5. -/
def liveRecordings (contentStore : List ContentItem) (now : Int) : List ContentItem :=
  (sortDescBy endKey (contentStore.filter (fun c => matchesRecording now c))).take 5

/-- Live payload. -/
structure LiveData where
  currentLiveEvents : List FormattedLiveEvent
  upcomingEvents : List FormattedUpcomingEvent
  recentRecordings : List FormattedRecording
deriving DecidableEq

/-- Live payload over concrete stores at a fixed current time. -/
def livePayloadOf (users : List User) (contentStore : List ContentItem)
    (now : Int) : LiveData :=
  ⟨(liveCurrent contentStore now).map (formatLiveEvent users),
    (liveUpcoming contentStore now).map (formatUpcomingEvent users),
    (liveRecordings contentStore now).map formatRecording⟩

/-- getLiveContent with every store access given as an Except outcome,
in source order: activity logging, current events, upcoming events,
recordings (dashboardController.js lines 298-376). -/
def getLiveContentH (users : List User) (logRes : Except String Unit)
    (currentRes : Except String (List ContentItem))
    (upcomingRes : Except String (List ContentItem))
    (recordingsRes : Except String (List ContentItem)) : HttpResponse LiveData :=
  let _ := logActivity logRes
  match currentRes with
  | .error e => serverError e
  | .ok current =>
    match upcomingRes with
    | .error e => serverError e
    | .ok upcoming =>
      match recordingsRes with
      | .error e => serverError e
      | .ok recordings =>
        okResp ⟨current.map (formatLiveEvent users),
          upcoming.map (formatUpcomingEvent users),
          recordings.map formatRecording⟩

/-- getLiveContent over concrete stores with every access succeeding. -/
def getLiveContentRun (users : List User) (contentStore : List ContentItem)
    (now : Int) : HttpResponse LiveData :=
  getLiveContentH users (.ok ()) (.ok (liveCurrent contentStore now))
    (.ok (liveUpcoming contentStore now)) (.ok (liveRecordings contentStore now))

/-! Helper lemmas about the list and string operations of the model. -/

theorem mem_insertDescBy {α : Type} (key : α → Int) (a x : α) (l : List α) :
    x ∈ insertDescBy key a l ↔ x = a ∨ x ∈ l := by
  induction l with
  | nil => simp [insertDescBy]
  | cons b bs ih =>
    by_cases h : key b ≤ key a
    · simp [insertDescBy, h]
    · simp only [insertDescBy, if_neg h, List.mem_cons, ih]
      tauto

theorem mem_sortDescBy {α : Type} (key : α → Int) (l : List α) (x : α) :
    x ∈ sortDescBy key l ↔ x ∈ l := by
  induction l with
  | nil => simp [sortDescBy]
  | cons a as ih => simp [sortDescBy, mem_insertDescBy, ih]

theorem pairwise_insertDescBy {α : Type} (key : α → Int) (a : α) (l : List α)
    (h : l.Pairwise (fun x y => key y ≤ key x)) :
    (insertDescBy key a l).Pairwise (fun x y => key y ≤ key x) := by
  induction l with
  | nil => simp [insertDescBy]
  | cons b bs ih =>
    rcases List.pairwise_cons.mp h with ⟨hb, hbs⟩
    by_cases hc : key b ≤ key a
    · simp only [insertDescBy, if_pos hc]
      refine List.pairwise_cons.mpr ⟨?_, List.pairwise_cons.mpr ⟨hb, hbs⟩⟩
      intro y hy
      rcases List.mem_cons.mp hy with rfl | hy'
      · exact hc
      · exact le_trans (hb y hy') hc
    · simp only [insertDescBy, if_neg hc]
      refine List.pairwise_cons.mpr ⟨?_, ih hbs⟩
      intro y hy
      rcases (mem_insertDescBy key a y bs).mp hy with rfl | hy'
      · exact le_of_not_le hc
      · exact hb y hy'

theorem pairwise_sortDescBy {α : Type} (key : α → Int) (l : List α) :
    (sortDescBy key l).Pairwise (fun x y => key y ≤ key x) := by
  induction l with
  | nil => simp [sortDescBy]
  | cons a as ih => exact pairwise_insertDescBy key a (sortDescBy key as) ih

theorem jsSubstring_of_le (s : String) (n : Nat) (h : s.length ≤ n) :
    jsSubstring s n = s := by
  unfold jsSubstring
  have : s.data.take n = s.data := List.take_of_length_le h
  rw [this]

theorem string_append_empty (s : String) : s ++ "" = s := by
  cases s with
  | mk data =>
    show String.mk (data ++ []) = String.mk data
    rw [List.append_nil]

theorem announcementsOf_error {c : ContentItem} {l : List ContentItem}
    (hc : c ∈ l) {e : String} (he : excerptOf c = .error e) :
    ∃ e', announcementsOf l = .error e' := by
  induction l with
  | nil => cases hc
  | cons a as ih =>
    rcases List.mem_cons.mp hc with rfl | h
    · exact ⟨e, by simp [announcementsOf, he]⟩
    · cases ha : excerptOf a with
      | error e' => exact ⟨e', by simp [announcementsOf, ha]⟩
      | ok ex =>
        obtain ⟨e', he'⟩ := ih h
        exact ⟨e', by simp [announcementsOf, ha, he']⟩

theorem searchUpdate_append_of_match (uid : Nat) (q : String) (n : Nat)
    (l l' : List SearchRecord) (h : ∃ r ∈ l, r.user = uid ∧ r.query = q) :
    searchFindOneAndUpdate (l ++ l') uid q n
      = searchFindOneAndUpdate l uid q n ++ l' := by
  induction l with
  | nil => simp at h
  | cons a as ih =>
    by_cases ha : a.user = uid ∧ a.query = q
    · simp [searchFindOneAndUpdate, ha]
    · have h' : ∃ r ∈ as, r.user = uid ∧ r.query = q := by
        rcases h with ⟨r, hr, hrp⟩
        rcases List.mem_cons.mp hr with rfl | hr'
        · exact absurd hrp ha
        · exact ⟨r, hr', hrp⟩
      simp [searchFindOneAndUpdate, ha, ih h']

theorem searchUpdate_of_no_match (uid : Nat) (q : String) (now : Int) (n : Nat)
    (l : List SearchRecord) (h : ∀ r ∈ l, ¬(r.user = uid ∧ r.query = q)) :
    searchFindOneAndUpdate (l ++ [⟨uid, q, now, 0⟩]) uid q n
      = l ++ [⟨uid, q, now, n⟩] := by
  induction l with
  | nil => simp [searchFindOneAndUpdate]
  | cons a as ih =>
    have ha : ¬(a.user = uid ∧ a.query = q) := h a (List.mem_cons_self a as)
    have h' : ∀ r ∈ as, ¬(r.user = uid ∧ r.query = q) :=
      fun r hr => h r (List.mem_cons_of_mem a hr)
    simp [searchFindOneAndUpdate, ha, ih h']

theorem mem_insertAscBy {α : Type} (key : α → Int) (a x : α) (l : List α) :
    x ∈ insertAscBy key a l ↔ x = a ∨ x ∈ l := by
  induction l with
  | nil => simp [insertAscBy]
  | cons b bs ih =>
    by_cases h : key a ≤ key b
    · simp [insertAscBy, h]
    · simp only [insertAscBy, if_neg h, List.mem_cons, ih]
      tauto

theorem mem_sortAscBy {α : Type} (key : α → Int) (l : List α) (x : α) :
    x ∈ sortAscBy key l ↔ x ∈ l := by
  induction l with
  | nil => simp [sortAscBy]
  | cons a as ih => simp [sortAscBy, mem_insertAscBy, ih]

/-- hostOf is determined by resolving the item's author reference: the
resolved author's name when it is non-empty, and the literal "System"
when the author reference is absent, dangling, or resolves to an empty
name. -/
theorem hostOf_author_cases (users : List User) (c : ContentItem) :
    (∃ u, findUserById users c.author = some u ∧ u.name ≠ ""
        ∧ hostOf users c = u.name)
    ∨ ((findUserById users c.author = none
        ∨ ∃ u, findUserById users c.author = some u ∧ u.name = "")
      ∧ hostOf users c = "System") := by
  unfold hostOf
  cases hf : findUserById users c.author with
  | none => exact Or.inr ⟨Or.inl rfl, rfl⟩
  | some u =>
    by_cases hn : u.name = ""
    · exact Or.inr ⟨Or.inr ⟨u, rfl, hn⟩, by simp [hn]⟩
    · exact Or.inl ⟨u, rfl, hn, by simp [hn]⟩

/-- C1 (amended): for a ContentItem with isLive=true, both event times
defined, startTime ≤ endTime and endTime ≠ now, exactly one of
GetLiveContent's three query filters (current, upcoming, recordings)
accepts the item. -/
theorem c1_amended_theorem (c : ContentItem) (now s e : Int)
    (hl : c.isLive = true) (hs : c.startTime = some s) (he : c.endTime = some e)
    (hse : s ≤ e) (hne : e ≠ now) :
    (matchesCurrentLive now c).toNat + (matchesUpcoming now c).toNat
      + (matchesRecording now c).toNat = 1 := by
  simp only [matchesCurrentLive, matchesUpcoming, matchesRecording, hl, hs, he,
    mongoLe, mongoGt, mongoLt, Bool.true_and]
  by_cases h1 : s ≤ now <;> by_cases h2 : now < e <;>
    by_cases h3 : now < s <;> by_cases h4 : e < now <;>
    simp [h1, h2, h3, h4] <;> omega

/-- Witness for C1: a live event running from time 0 to time 10, seen at
time 5, satisfies exactly one filter. -/
theorem c1_witness :
    (matchesCurrentLive 5 ⟨1, "ev", "event", none, none, none, [], true, some 0, some 10, 0, 0⟩).toNat
      + (matchesUpcoming 5 ⟨1, "ev", "event", none, none, none, [], true, some 0, some 10, 0, 0⟩).toNat
      + (matchesRecording 5 ⟨1, "ev", "event", none, none, none, [], true, some 0, some 10, 0, 0⟩).toNat = 1 :=
  c1_amended_theorem ⟨1, "ev", "event", none, none, none, [], true, some 0, some 10, 0, 0⟩
    5 0 10 rfl rfl rfl (by decide) (by decide)

/-- Counterexample for C1 as stated: an isLive item whose endTime equals
the current time appears in none of the three returned sets (its endTime
matches neither the $gt nor the $lt bound). -/
theorem c1_counterexample :
    (⟨1, "ev", "event", none, none, none, [], true, some 0, some 100, 0, 0⟩ : ContentItem).isLive = true
    ∧ (livePayloadOf [] [⟨1, "ev", "event", none, none, none, [], true, some 0, some 100, 0, 0⟩] 100).currentLiveEvents = []
    ∧ (livePayloadOf [] [⟨1, "ev", "event", none, none, none, [], true, some 0, some 100, 0, 0⟩] 100).upcomingEvents = []
    ∧ (livePayloadOf [] [⟨1, "ev", "event", none, none, none, [], true, some 0, some 100, 0, 0⟩] 100).recentRecordings = [] :=
  ⟨rfl, rfl, rfl, rfl⟩

/-- C4 (amended): every returned current and upcoming live event is a
stored content item formatted with a host joined from that item's own
author reference — the resolved author's name, falling back to the
literal "System" when the author is absent, dangling, or unnamed — while
the recordings list is not joined with authors at all: it is unchanged
when the user store is emptied. -/
theorem c4_amended_theorem (users : List User) (contents : List ContentItem)
    (now : Int) :
    (∀ x ∈ (livePayloadOf users contents now).currentLiveEvents,
      ∃ c, c ∈ contents ∧ x = formatLiveEvent users c
        ∧ ((∃ u, findUserById users c.author = some u ∧ u.name ≠ ""
              ∧ x.host = u.name)
          ∨ ((findUserById users c.author = none
              ∨ ∃ u, findUserById users c.author = some u ∧ u.name = "")
            ∧ x.host = "System")))
    ∧ (∀ x ∈ (livePayloadOf users contents now).upcomingEvents,
      ∃ c, c ∈ contents ∧ x = formatUpcomingEvent users c
        ∧ ((∃ u, findUserById users c.author = some u ∧ u.name ≠ ""
              ∧ x.host = u.name)
          ∨ ((findUserById users c.author = none
              ∨ ∃ u, findUserById users c.author = some u ∧ u.name = "")
            ∧ x.host = "System")))
    ∧ (livePayloadOf users contents now).recentRecordings
      = (livePayloadOf [] contents now).recentRecordings := by
  refine ⟨?_, ?_, rfl⟩
  · intro x hx
    have hx' : x ∈ (liveCurrent contents now).map (formatLiveEvent users) := hx
    obtain ⟨c, hc, rfl⟩ := List.mem_map.mp hx'
    have hcf : c ∈ contents.filter (fun c => matchesCurrentLive now c) := hc
    exact ⟨c, (List.mem_filter.mp hcf).1, rfl, hostOf_author_cases users c⟩
  · intro x hx
    have hx' : x ∈ (liveUpcoming contents now).map (formatUpcomingEvent users) := hx
    obtain ⟨c, hc, rfl⟩ := List.mem_map.mp hx'
    have h2 : c ∈ sortAscBy startKey (contents.filter (fun c => matchesUpcoming now c)) :=
      List.take_subset _ _ hc
    rw [mem_sortAscBy] at h2
    exact ⟨c, (List.mem_filter.mp h2).1, rfl, hostOf_author_cases users c⟩

/-- Witness for C4 (amended): a concrete current live event authored by
user 7 ("Alice") is formatted with the host joined from its author. -/
theorem c4_witness :
    ∃ c, c ∈ [(⟨1, "ev", "event", none, none, some 7, [], true, some 0, some 100, 0, 0⟩ : ContentItem)]
      ∧ formatLiveEvent [⟨7, "Alice", "a@b"⟩] ⟨1, "ev", "event", none, none, some 7, [], true, some 0, some 100, 0, 0⟩
          = formatLiveEvent [⟨7, "Alice", "a@b"⟩] c
      ∧ ((∃ u, findUserById [⟨7, "Alice", "a@b"⟩] c.author = some u ∧ u.name ≠ ""
            ∧ (formatLiveEvent [⟨7, "Alice", "a@b"⟩] ⟨1, "ev", "event", none, none, some 7, [], true, some 0, some 100, 0, 0⟩).host = u.name)
        ∨ ((findUserById [⟨7, "Alice", "a@b"⟩] c.author = none
            ∨ ∃ u, findUserById [⟨7, "Alice", "a@b"⟩] c.author = some u ∧ u.name = "")
          ∧ (formatLiveEvent [⟨7, "Alice", "a@b"⟩] ⟨1, "ev", "event", none, none, some 7, [], true, some 0, some 100, 0, 0⟩).host = "System")) :=
  (c4_amended_theorem [⟨7, "Alice", "a@b"⟩] [⟨1, "ev", "event", none, none, some 7, [], true, some 0, some 100, 0, 0⟩] 10).1
    (formatLiveEvent [⟨7, "Alice", "a@b"⟩] ⟨1, "ev", "event", none, none, some 7, [], true, some 0, some 100, 0, 0⟩)
    (by decide)

/-- Counterexample for C4 as stated: a recording authored by a user
named "Alice" produces exactly the same recordings payload as when the
user store is empty — the recordings set is not joined with its author's
name (and carries no "System" fallback either). -/
theorem c4_counterexample :
    (livePayloadOf [⟨7, "Alice", "a@b"⟩] [⟨2, "rec", "event", none, none, some 7, [], true, some 0, some 50, 0, 0⟩] 100).recentRecordings
      = (livePayloadOf [] [⟨2, "rec", "event", none, none, some 7, [], true, some 0, some 50, 0, 0⟩] 100).recentRecordings
    ∧ (livePayloadOf [] [⟨2, "rec", "event", none, none, some 7, [], true, some 0, some 50, 0, 0⟩] 100).recentRecordings.length = 1 :=
  ⟨rfl, rfl⟩

/-- C5: for a non-empty query the results list is the content results
(at most 10) followed by the user results (at most 5), so at most 15
entries, and every entry's matchReason contains the query text. -/
theorem c5_theorem (uid : Nat) (now : Int) (q : String)
    (searchStore : List SearchRecord) (contentStore : List ContentItem)
    (userStore : List User) (hq : q ≠ "") :
    ∃ payload,
      ((getSearchPageRun uid q now searchStore contentStore userStore).1).data = some payload
      ∧ payload.results = (contentSearch contentStore q).map (formatContentResult q)
          ++ (userSearch userStore q).map (formatUserResult q)
      ∧ payload.results.length ≤ 15
      ∧ ∀ r ∈ payload.results, ∃ pre post, r.matchReason = pre ++ q ++ post := by
  have hresp : (getSearchPageRun uid q now searchStore contentStore userStore).1
      = okResp ⟨(recentSearchesOf (searchStore ++ [⟨uid, q, now, 0⟩]) uid).map (fun r => r.query),
          (popularSearchesOf (searchStore ++ [⟨uid, q, now, 0⟩])).map (fun p => p.1),
          (contentSearch contentStore q).map (formatContentResult q)
            ++ (userSearch userStore q).map (formatUserResult q)⟩ := by
    simp [getSearchPageRun, getSearchPageH, hq]
  have h1 : (contentSearch contentStore q).length ≤ 10 := by
    simp only [contentSearch, List.length_take]
    exact min_le_left _ _
  have h2 : (userSearch userStore q).length ≤ 5 := by
    simp only [userSearch, List.length_take]
    exact min_le_left _ _
  refine ⟨_, by rw [hresp]; rfl, rfl, ?_, ?_⟩
  · simp only [List.length_append, List.length_map]
    omega
  · intro r hr
    rcases List.mem_append.mp hr with h | h
    · obtain ⟨c, _, rfl⟩ := List.mem_map.mp h
      exact ⟨"Content matches \"", "\"", rfl⟩
    · obtain ⟨u, _, rfl⟩ := List.mem_map.mp h
      exact ⟨"User matches \"", "\"", rfl⟩

/-- Witness for C5: searching "go" over a store holding one item titled
"golang" yields the claimed shape. -/
theorem c5_witness :
    ∃ payload,
      ((getSearchPageRun 1 "go" 5 []
          [⟨3, "golang", "article", none, none, none, [], false, none, none, 0, 0⟩] []).1).data = some payload
      ∧ payload.results = (contentSearch [⟨3, "golang", "article", none, none, none, [], false, none, none, 0, 0⟩] "go").map (formatContentResult "go")
          ++ (userSearch [] "go").map (formatUserResult "go")
      ∧ payload.results.length ≤ 15
      ∧ ∀ r ∈ payload.results, ∃ pre post, r.matchReason = pre ++ "go" ++ post :=
  c5_theorem 1 5 "go" []
    [⟨3, "golang", "article", none, none, none, [], false, none, none, 0, 0⟩] [] (by decide)

/-- C6: for an empty query GetSearchPage leaves the search store
unchanged and returns an empty results list, while recentSearches and
popularSearches are still computed from the existing records. -/
theorem c6_theorem (uid : Nat) (now : Int) (searchStore : List SearchRecord)
    (contentStore : List ContentItem) (userStore : List User) :
    (getSearchPageRun uid "" now searchStore contentStore userStore).2 = searchStore
    ∧ (getSearchPageRun uid "" now searchStore contentStore userStore).1
      = okResp ⟨(recentSearchesOf searchStore uid).map (fun r => r.query),
          (popularSearchesOf searchStore).map (fun p => p.1), []⟩ := by
  constructor <;> rfl

/-- C2 (amended): the result count is written onto the first matching
SearchRecord in insertion order — the oldest stored duplicate when one
exists (the just-created record then keeps count 0), and the
just-created record only when no prior record matches {user, query}. -/
theorem c2_amended_theorem (uid : Nat) (q : String) (now : Int)
    (searchStore : List SearchRecord) (contentStore : List ContentItem)
    (userStore : List User) (hq : q ≠ "") :
    ((∃ r ∈ searchStore, r.user = uid ∧ r.query = q) →
      (getSearchPageRun uid q now searchStore contentStore userStore).2
        = searchFindOneAndUpdate searchStore uid q (searchResultsOf q contentStore userStore).length
          ++ [⟨uid, q, now, 0⟩])
    ∧ ((∀ r ∈ searchStore, ¬(r.user = uid ∧ r.query = q)) →
      (getSearchPageRun uid q now searchStore contentStore userStore).2
        = searchStore ++ [⟨uid, q, now, (searchResultsOf q contentStore userStore).length⟩]) := by
  have hrun : (getSearchPageRun uid q now searchStore contentStore userStore).2
      = searchFindOneAndUpdate (searchStore ++ [⟨uid, q, now, 0⟩]) uid q
          (searchResultsOf q contentStore userStore).length := by
    simp [getSearchPageRun, hq]
  constructor
  · intro hex
    rw [hrun, searchUpdate_append_of_match _ _ _ _ _ hex]
  · intro hno
    rw [hrun, searchUpdate_of_no_match _ _ _ _ _ hno]

/-- Witness for C2 (amended): with an older stored {user 1, "go"} record
the update lands on the old store and the fresh record is appended with
count 0. -/
theorem c2_witness :
    (getSearchPageRun 1 "go" 20 [⟨1, "go", 10, 0⟩] [] []).2
      = searchFindOneAndUpdate [⟨1, "go", 10, 0⟩] 1 "go" (searchResultsOf "go" [] []).length
        ++ [⟨1, "go", 20, 0⟩] :=
  (c2_amended_theorem 1 "go" 20 [⟨1, "go", 10, 0⟩] [] [] (by decide)).1
    ⟨⟨1, "go", 10, 0⟩, by decide, by decide, by decide⟩

/-- Counterexample for C2 as stated: user 1 already searched "go" at
time 10 and repeats it at time 20 with one matching content item.  The
result count 1 is written onto the older record (timestamp 10) while the
most recent matching record (timestamp 20) keeps count 0. -/
theorem c2_counterexample :
    (getSearchPageRun 1 "go" 20 [⟨1, "go", 10, 0⟩]
        [⟨3, "golang", "article", none, none, none, [], false, none, none, 0, 0⟩] []).2
      = [⟨1, "go", 10, 1⟩, ⟨1, "go", 20, 0⟩]
    ∧ (searchResultsOf "go"
        [⟨3, "golang", "article", none, none, none, [], false, none, none, 0, 0⟩] []).length = 1 := by
  constructor <;> rfl

/-- C3 (amended): the recommendation set is built from the user's first
ten SearchRecords in store (insertion) order — the query has no sort —
and consists of content items matching one of those queries, capped at
five, newest first. -/
theorem c3_amended_theorem (uid : Nat) (searchStore : List SearchRecord)
    (contentStore : List ContentItem) (userStore : List User) :
    ∃ picked : List ContentItem,
      (forYouPayloadOf uid searchStore contentStore userStore).recommendedContent
        = picked.map formatRecommendation
      ∧ picked.length ≤ 5
      ∧ (∀ c ∈ picked, c ∈ contentStore
          ∧ matchesAnyQuery ((forYouSearchTerms uid searchStore).map (fun r => r.query)) c = true)
      ∧ picked.Pairwise (fun a b => b.createdAt ≤ a.createdAt) := by
  refine ⟨forYouRecommended uid searchStore contentStore, rfl, ?_, ?_, ?_⟩
  · simp only [forYouRecommended, List.length_take]
    exact min_le_left _ _
  · intro c hc
    have h1 : c ∈ sortDescBy (fun c => c.createdAt)
        (contentStore.filter (fun c =>
          matchesAnyQuery ((forYouSearchTerms uid searchStore).map (fun r => r.query)) c)) :=
      List.take_subset _ _ hc
    rw [mem_sortDescBy] at h1
    rcases List.mem_filter.mp h1 with ⟨h2, h3⟩
    exact ⟨h2, h3⟩
  · exact List.Pairwise.sublist (List.take_sublist _ _) (pairwise_sortDescBy _ _)

/-- Witness for C3 (amended) at concrete (empty) stores. -/
theorem c3_witness :
    ∃ picked : List ContentItem,
      (forYouPayloadOf 1 [] [] []).recommendedContent = picked.map formatRecommendation
      ∧ picked.length ≤ 5
      ∧ (∀ c ∈ picked, c ∈ ([] : List ContentItem)
          ∧ matchesAnyQuery ((forYouSearchTerms 1 []).map (fun r => r.query)) c = true)
      ∧ picked.Pairwise (fun a b => b.createdAt ≤ a.createdAt) :=
  c3_amended_theorem 1 [] [] []

/-- Counterexample for C3 as stated: user 1 has eleven search records
with strictly increasing timestamps; the most recent query "z" matches
the only content item, yet the recommendation set is empty because the
code reads the first ten records in store order ("a".."j"), not the ten
most recent ("b".."j","z"). -/
theorem c3_counterexample :
    (forYouPayloadOf 1
        [⟨1, "a", 1, 0⟩, ⟨1, "b", 2, 0⟩, ⟨1, "c", 3, 0⟩, ⟨1, "d", 4, 0⟩, ⟨1, "e", 5, 0⟩,
         ⟨1, "f", 6, 0⟩, ⟨1, "g", 7, 0⟩, ⟨1, "h", 8, 0⟩, ⟨1, "i", 9, 0⟩, ⟨1, "j", 10, 0⟩,
         ⟨1, "z", 11, 0⟩]
        [⟨9, "zzz", "article", none, none, none, [], false, none, none, 3, 3⟩] []).recommendedContent = []
    ∧ matchesAnyQuery ["z"] ⟨9, "zzz", "article", none, none, none, [], false, none, none, 3, 3⟩ = true
    ∧ (∃ r ∈ [(⟨1, "a", 1, 0⟩ : SearchRecord), ⟨1, "b", 2, 0⟩, ⟨1, "c", 3, 0⟩, ⟨1, "d", 4, 0⟩, ⟨1, "e", 5, 0⟩,
         ⟨1, "f", 6, 0⟩, ⟨1, "g", 7, 0⟩, ⟨1, "h", 8, 0⟩, ⟨1, "i", 9, 0⟩, ⟨1, "j", 10, 0⟩,
         ⟨1, "z", 11, 0⟩],
        r.query = "z" ∧ ∀ r' ∈ [(⟨1, "a", 1, 0⟩ : SearchRecord), ⟨1, "b", 2, 0⟩, ⟨1, "c", 3, 0⟩, ⟨1, "d", 4, 0⟩, ⟨1, "e", 5, 0⟩,
         ⟨1, "f", 6, 0⟩, ⟨1, "g", 7, 0⟩, ⟨1, "h", 8, 0⟩, ⟨1, "i", 9, 0⟩, ⟨1, "j", 10, 0⟩,
         ⟨1, "z", 11, 0⟩], r'.timestamp ≤ r.timestamp) := by
  refine ⟨by decide, by decide, by decide⟩

/-- C7: every formatted inbox message comes from a stored message to the
user, and its preview is the first 100 characters of the body plus an
ellipsis when the body exceeds 100 characters, or the unmodified body
otherwise. -/
theorem c7_theorem (uid : Nat) (users : List User) (msgStore : List Message) :
    ∀ fm ∈ (inboxPayloadOf uid users msgStore).messages,
      ∃ m, m ∈ msgStore ∧ m.recipient = uid
        ∧ (100 < m.content.length → fm.preview = jsSubstring m.content 100 ++ "...")
        ∧ (m.content.length ≤ 100 → fm.preview = m.content) := by
  intro fm hfm
  have hfm' : fm ∈ (inboxPage uid msgStore).map (formatMessage users) := hfm
  obtain ⟨m, hm, rfl⟩ := List.mem_map.mp hfm'
  have h2 : m ∈ sortDescBy (fun m => m.createdAt)
      (msgStore.filter (fun m => m.recipient == uid)) :=
    List.take_subset _ _ hm
  rw [mem_sortDescBy] at h2
  obtain ⟨hmem, hrec⟩ := List.mem_filter.mp h2
  refine ⟨m, hmem, by simpa using hrec, ?_, ?_⟩
  · intro hlen
    show previewOf m.content = _
    unfold previewOf
    rw [if_pos hlen]
  · intro hlen
    show previewOf m.content = _
    unfold previewOf
    rw [if_neg (by omega), jsSubstring_of_le _ _ hlen, string_append_empty]

set_option maxRecDepth 8000 in
/-- Witness for C7: a single 150-character message body; its preview is
the first 100 characters followed by the ellipsis. -/
theorem c7_witness :
    ∃ m, m ∈ [(⟨1, 2, 1, "s", ⟨List.replicate 150 'x'⟩, false, 5⟩ : Message)]
      ∧ m.recipient = 1
      ∧ (100 < m.content.length →
          (formatMessage [] ⟨1, 2, 1, "s", ⟨List.replicate 150 'x'⟩, false, 5⟩).preview
            = jsSubstring m.content 100 ++ "...")
      ∧ (m.content.length ≤ 100 →
          (formatMessage [] ⟨1, 2, 1, "s", ⟨List.replicate 150 'x'⟩, false, 5⟩).preview = m.content) :=
  c7_theorem 1 [] [⟨1, 2, 1, "s", ⟨List.replicate 150 'x'⟩, false, 5⟩]
    (formatMessage [] ⟨1, 2, 1, "s", ⟨List.replicate 150 'x'⟩, false, 5⟩)
    (by decide)

/-- C9: unreadCount counts the unread messages of the fetched page (at
most the 20 newest messages to the user), hence is at most 20, and a
user with no messages gets unreadCount 0 and an empty message list. -/
theorem c9_theorem (uid : Nat) (users : List User) (msgStore : List Message) :
    (inboxPayloadOf uid users msgStore).unreadCount
      = (inboxPage uid msgStore).countP (fun m => !m.isRead)
    ∧ (inboxPayloadOf uid users msgStore).unreadCount ≤ 20
    ∧ (msgStore.filter (fun m => m.recipient == uid) = [] →
        (inboxPayloadOf uid users msgStore).unreadCount = 0
        ∧ (inboxPayloadOf uid users msgStore).messages = []) := by
  refine ⟨?_, ?_, ?_⟩
  · show ((inboxPage uid msgStore).filter (fun m => !m.isRead)).length = _
    rw [List.countP_eq_length_filter]
  · calc (inboxPayloadOf uid users msgStore).unreadCount
        ≤ (inboxPage uid msgStore).length := List.length_filter_le _ _
      _ ≤ 20 := by
        simp only [inboxPage, List.length_take]
        exact min_le_left _ _
  · intro h
    constructor
    · show ((inboxPage uid msgStore).filter (fun m => !m.isRead)).length = 0
      simp [inboxPage, h, sortDescBy]
    · show ((inboxPage uid msgStore).map (formatMessage users)) = []
      simp [inboxPage, h, sortDescBy]

/-- Witness for C9: a user with no messages at all. -/
theorem c9_witness :
    (inboxPayloadOf 3 [] []).unreadCount = 0 ∧ (inboxPayloadOf 3 [] []).messages = [] :=
  (c9_theorem 3 [] []).2.2 rfl

/-- C10: if one of the three most recent content items has a falsy
description (absent or empty) and no body, GetHomePage fails with the
generic error response instead of producing an announcements payload:
the excerpt computation dereferences the missing body. -/
theorem c10_theorem (uid : Nat) (activityStore : List ActivityRecord)
    (msgStore : List Message) (contentStore : List ContentItem) (c : ContentItem)
    (hc : c ∈ homeRecentContent contentStore)
    (hd : descTruthy c.description = false) (hb : c.content = none) :
    (getHomePageRun uid activityStore msgStore contentStore).success = false := by
  have hex : excerptOf c = .error "Cannot read properties of undefined (reading 'substring')" := by
    unfold excerptOf
    cases hdesc : c.description with
    | none => rw [hb]; rfl
    | some d =>
      have hde : d = "" := by
        rw [hdesc] at hd
        simpa [descTruthy] using hd
      rw [hde]
      simp [hb, bodyExcerpt]
  obtain ⟨e', he'⟩ := announcementsOf_error hc hex
  simp [getHomePageRun, getHomePageH, he', serverError]

/-- Witness for C10: a single content item with no description and no
body makes the home page request fail. -/
theorem c10_witness :
    (getHomePageRun 1 [] [] [⟨4, "t", "news", none, none, none, [], false, none, none, 5, 5⟩]).success = false :=
  c10_theorem 1 [] [] [⟨4, "t", "news", none, none, none, [], false, none, none, 5, 5⟩]
    ⟨4, "t", "news", none, none, none, [], false, none, none, 5, 5⟩
    (by decide) (by decide) rfl

/-- C8: across all five dashboard handlers, a failing activity-logging
write is swallowed — the handler behaves exactly as with a successful
log — while a failure of any other store access (each listed in source
order, the earlier accesses having succeeded) makes the handler return
the 500 envelope {success: false, message: the underlying error}. -/
theorem c8_theorem :
    (∀ (e : String) la u c, getHomePageH (.error e) la u c = getHomePageH (.ok ()) la u c)
    ∧ (∀ (l : Except String Unit) (e : String) u c,
        getHomePageH l (.error e) u c = serverError e)
    ∧ (∀ (l : Except String Unit) a (e : String) c,
        getHomePageH l (.ok a) (.error e) c = serverError e)
    ∧ (∀ (l : Except String Unit) a u (e : String),
        getHomePageH l (.ok a) (.ok u) (.error e) = serverError e)
    ∧ (∀ (q : String) (e : String) cr re po co us up,
        getSearchPageH q (.error e) cr re po co us up
          = getSearchPageH q (.ok ()) cr re po co us up)
    ∧ (∀ (q : String), q ≠ "" → ∀ (l : Except String Unit) (e : String) re po co us up,
        getSearchPageH q l (.error e) re po co us up = serverError e)
    ∧ (∀ (q : String) (l : Except String Unit) (e : String) po co us up,
        getSearchPageH q l (.ok ()) (.error e) po co us up = serverError e)
    ∧ (∀ (q : String) (l : Except String Unit) re (e : String) co us up,
        getSearchPageH q l (.ok ()) (.ok re) (.error e) co us up = serverError e)
    ∧ (∀ (q : String), q ≠ "" → ∀ (l : Except String Unit) re po (e : String) us up,
        getSearchPageH q l (.ok ()) (.ok re) (.ok po) (.error e) us up = serverError e)
    ∧ (∀ (q : String), q ≠ "" → ∀ (l : Except String Unit) re po cs (e : String) up,
        getSearchPageH q l (.ok ()) (.ok re) (.ok po) (.ok cs) (.error e) up = serverError e)
    ∧ (∀ (q : String), q ≠ "" → ∀ (l : Except String Unit) re po cs us (e : String),
        getSearchPageH q l (.ok ()) (.ok re) (.ok po) (.ok cs) (.ok us) (.error e) = serverError e)
    ∧ (∀ (us : List User) (e : String) ms,
        getInboxH us (.error e) ms = getInboxH us (.ok ()) ms)
    ∧ (∀ (us : List User) (l : Except String Unit) (e : String),
        getInboxH us l (.error e) = serverError e)
    ∧ (∀ (e : String) a s c u t, getForYouH (.error e) a s c u t = getForYouH (.ok ()) a s c u t)
    ∧ (∀ (l : Except String Unit) (e : String) s c u t,
        getForYouH l (.error e) s c u t = serverError e)
    ∧ (∀ (l : Except String Unit) a (e : String) c u t,
        getForYouH l (.ok a) (.error e) c u t = serverError e)
    ∧ (∀ (l : Except String Unit) a s (e : String) u t,
        getForYouH l (.ok a) (.ok s) (.error e) u t = serverError e)
    ∧ (∀ (l : Except String Unit) a s c (e : String) t,
        getForYouH l (.ok a) (.ok s) (.ok c) (.error e) t = serverError e)
    ∧ (∀ (l : Except String Unit) a s c u (e : String),
        getForYouH l (.ok a) (.ok s) (.ok c) (.ok u) (.error e) = serverError e)
    ∧ (∀ (us : List User) (e : String) cu up re,
        getLiveContentH us (.error e) cu up re = getLiveContentH us (.ok ()) cu up re)
    ∧ (∀ (us : List User) (l : Except String Unit) (e : String) up re,
        getLiveContentH us l (.error e) up re = serverError e)
    ∧ (∀ (us : List User) (l : Except String Unit) cu (e : String) re,
        getLiveContentH us l (.ok cu) (.error e) re = serverError e)
    ∧ (∀ (us : List User) (l : Except String Unit) cu up (e : String),
        getLiveContentH us l (.ok cu) (.ok up) (.error e) = serverError e) :=
  ⟨fun _ _ _ _ => rfl,
   fun _ _ _ _ => rfl,
   fun _ _ _ _ => rfl,
   fun _ _ _ _ => rfl,
   fun _ _ _ _ _ _ _ _ => rfl,
   by intro q hq l e re po co us up; simp [getSearchPageH, hq],
   by intro q l e po co us up; by_cases hq : q ≠ "" <;> simp [getSearchPageH, hq],
   by intro q l re e co us up; by_cases hq : q ≠ "" <;> simp [getSearchPageH, hq],
   by intro q hq l re po e us up; simp [getSearchPageH, hq],
   by intro q hq l re po cs e up; simp [getSearchPageH, hq],
   by intro q hq l re po cs us e; simp [getSearchPageH, hq],
   fun _ _ _ => rfl,
   fun _ _ _ => rfl,
   fun _ _ _ _ _ _ => rfl,
   fun _ _ _ _ _ _ => rfl,
   fun _ _ _ _ _ _ => rfl,
   fun _ _ _ _ _ _ => rfl,
   fun _ _ _ _ _ _ => rfl,
   fun _ _ _ _ _ _ => rfl,
   fun _ _ _ _ _ => rfl,
   fun _ _ _ _ _ => rfl,
   fun _ _ _ _ _ => rfl,
   fun _ _ _ _ _ => rfl⟩

/-- Witness for C8: a failing content search (with the activity log also
failing, which is ignored) yields the 500 envelope with the underlying
message. -/
theorem c8_witness :
    getSearchPageH "a" (.error "log down") (.ok ()) (.ok []) (.ok [])
        (.error "db down") (.ok []) (.ok ())
      = serverError "db down" :=
  c8_theorem.2.2.2.2.2.2.2.2.1 "a" (by decide) (.error "log down") [] [] "db down"
    (.ok []) (.ok ())
